import Mathlib

/-!
Verification development for the tournament result-processing pipeline of
src/update-node.js.  The JavaScript functions of the pipeline are embedded
as executable Lean definitions; the Firebase realtime-database state the
pipeline reads and writes is modelled as a record of insertion-ordered
association lists (the standard abstraction of JS objects / Firebase nodes:
a key is present or absent, writes update in place or append).  JS numbers
holding point totals are modelled as rationals; placement counters as
naturals.  Names follow the source file.
-/

/- The Batteries rational operations are irreducible by default, which
blocks the tactic-side evaluation used by the decide tactic.  The
kernel ignores reducibility attributes, so re-marking them is harmless. -/
attribute [local semireducible] Rat.add Rat.mul Rat.inv Rat.sub Rat.ofScientific

namespace UpdateNode

/-! ### Character-level string helpers (kernel-computable) -/

/-- Lower-case a string character by character (models JS toLowerCase on
the ASCII tournament names the pipeline sees). -/
def lowerStr (s : String) : String :=
  String.mk (s.data.map Char.toLower)

/-- Upper-case a string character by character (models JS toUpperCase). -/
def upperStr (s : String) : String :=
  String.mk (s.data.map Char.toUpper)

/-- Remove every whitespace character (models JS .replace of whitespace
with the empty string). -/
def stripWs (s : String) : String :=
  String.mk (s.data.filter (fun c => !c.isWhitespace))

/-- pat occurs at the start of s. -/
def leadsWith : List Char → List Char → Bool
  | [], _ => true
  | _ :: _, [] => false
  | a :: as, b :: bs => a == b && leadsWith as bs

/-- pat occurs somewhere in s. -/
def hasSubChars (pat : List Char) : List Char → Bool
  | [] => pat.isEmpty
  | s@(_ :: rest) => leadsWith pat s || hasSubChars pat rest

/-- Models JS String.prototype.includes for the nonempty literal patterns
used by getTierFromName. -/
def jsIncludes (s pat : String) : Bool :=
  hasSubChars pat.data s.data

/-- Normalization applied by fetchClubsAndPlayers (and findPlayerLocation)
to PlayFab ids: toUpperCase, then remove all whitespace
(src/update-node.js line 428 and line 1296). -/
def normalizePlayfabId (s : String) : String :=
  stripWs (upperStr s)

/-! ### getTierFromName (src/update-node.js lines 550-613) -/

/-- Tier classification from the tournament display name.  none models a
missing or non-string name; a present empty string is also falsy in the
JS guard.  The rule order mirrors the source exactly. -/
def getTierFromName (name : Option String) : String :=
  match name with
  | none => "Unknown"
  | some name =>
    if name = "" then "Unknown"
    else
      let n := lowerStr name
      if jsIncludes n "silver" && jsIncludes n "singapore" then "silverAsia1"
      else if jsIncludes n "silver" && jsIncludes n "eu" && jsIncludes n "1" then "silverEu1"
      else if jsIncludes n "silver" && jsIncludes n "eu" && jsIncludes n "2" then "silverEu2"
      else if jsIncludes n "silver" && jsIncludes n "us" && jsIncludes n "1" then "silverUs1"
      else if jsIncludes n "silver" && jsIncludes n "us" && jsIncludes n "2" then "silverUs2"
      else if jsIncludes n "gold" && jsIncludes n "limited" then "goldLimited"
      else if jsIncludes n "halloween" then "halloweenCup"
      else if jsIncludes n "asia cup" then "asia"
      else if jsIncludes n "round madness" && jsIncludes n "eu" then "roundMadnessEu"
      else if jsIncludes n "round madness" && jsIncludes n "us" then "roundMadnessUs"
      else if jsIncludes n "round madness" && jsIncludes n "india" then "roundMadnessIndia"
      else if jsIncludes n "diamond" then "diamond"
      else if jsIncludes n "platinum" then "platinum"
      else if jsIncludes n "gold" then "gold"
      else if jsIncludes n "america" then "america"
      else if jsIncludes n "championship" then "Unknown"
      else "Unknown"

/-! ### getPointsMapping (src/update-node.js lines 863-884) -/

/-- Points per placement for a tier; a lookup in the literal pointsMap
object with an all-zero fallback for absent keys. -/
def getPointsMapping (tier : String) : List ℚ :=
  if tier = "diamond" then [36, 18, 9, 9]
  else if tier = "platinum" then [18, 9, 4.5, 4.5]
  else if tier = "goldLimited" then [6, 3, 1.5, 1.5]
  else if tier = "gold" then [5, 2.5, 1.2, 1.2]
  else if tier = "silverEu2" then [2, 1, 0.5, 0.5]
  else if tier = "silverEu1" then [1.6, 0.8, 0.4, 0.4]
  else if tier = "silverUs1" then [1.4, 0.7, 0.3, 0.3]
  else if tier = "asia" then [1.2, 0.6, 0.3, 0.3]
  else if tier = "america" then [2, 1, 0.5, 0.5]
  else if tier = "silverUs2" then [1.2, 0.6, 0, 0]
  else if tier = "silverAsia1" then [1.8, 0.9, 0.4, 0.4]
  else if tier = "roundMadnessEu" then [10, 5, 2.5, 1.7]
  else if tier = "roundMadnessUs" then [7, 3.5, 1.7, 1.2]
  else if tier = "roundMadnessIndia" then [6.4, 3.2, 1.6, 1.1]
  else if tier = "halloweenCup" then [10, 5, 2.5, 2.5]
  else if tier = "Unknown" then [0, 0, 0, 0]
  else [0, 0, 0, 0]

/-- The keys of the pointsMap object literal, in source order. -/
def knownTiers : List String :=
  ["diamond", "platinum", "goldLimited", "gold", "silverEu2", "silverEu1",
   "silverUs1", "asia", "america", "silverUs2", "silverAsia1",
   "roundMadnessEu", "roundMadnessUs", "roundMadnessIndia", "halloweenCup",
   "Unknown"]

/-- JS pointsForPlacement[placement - 1] with the undefined-to-0 fallback:
out-of-range indexes (including negative) yield 0. -/
def pointsAt (pts : List ℚ) (placement : Int) : ℚ :=
  if 1 ≤ placement then pts.getD (placement - 1).toNat 0 else 0

/-! ### getStatFieldForPlacement (src/update-node.js lines 1335-1344) -/

/-- Placement to counter-field name; the fieldMap object has keys 1-4 only,
with 4 sharing the bronze counter, and a null fallback. -/
def getStatFieldForPlacement (placement : Int) : Option String :=
  if placement = 1 then some "first"
  else if placement = 2 then some "second"
  else if placement = 3 then some "third"
  else if placement = 4 then some "third"
  else none

/-! ### Insertion-ordered association lists

JS objects and Firebase nodes are modelled as association lists: a key is
present or absent, assigning to a present key updates it in place, and
assigning to a fresh key appends it. -/

/-- Look a key up. -/
def alookup {κ α : Type} [DecidableEq κ] : List (κ × α) → κ → Option α
  | [], _ => none
  | e :: rest, k => if e.1 = k then some e.2 else alookup rest k

/-- Assign a key: update in place when present, append when absent. -/
def aset {κ α : Type} [DecidableEq κ] : List (κ × α) → κ → α → List (κ × α)
  | [], k, v => [(k, v)]
  | e :: rest, k, v => if e.1 = k then (k, v) :: rest else e :: aset rest k v

/-! ### Data model -/

/-- One participant row of the tournament feed.  userPlace carries the
parseInt result of the raw field; none models NaN or a missing field. -/
structure Row where
  userPlayfabId : Option String := none
  userPlace : Option Int := none
  partyId : Option String := none
deriving Repr, DecidableEq

/-- A team built by groupPlayersByTeam, keyed by partyId.  The four lists
grow in row order and stay the same length. -/
structure Team where
  placements : List Int := []
  clubNames : List String := []
  playerIds : List String := []
  playerNames : List String := []
  hasUnregisteredPlayers : Bool := false
deriving Repr, DecidableEq

/-- A value of the playersCache built by fetchClubsAndPlayers. -/
structure PlayerInfo where
  name : String
  clubName : String
  clubId : Option String := none
  playerId : Option String := none
deriving Repr, DecidableEq

/-- Per-tier placement counters, as created by the source before any
counter update (first/second/third; there is no fourth counter). -/
structure TierStats where
  first : Nat := 0
  second : Nat := 0
  third : Nat := 0
deriving Repr, DecidableEq

/-- One seasons/{season} node: a season-scoped points total plus
season-scoped per-tier counters. -/
structure SeasonData where
  totalPoints : ℚ := 0
  tiers : List (String × TierStats) := []
deriving Repr, DecidableEq

/-- One clubs/{clubId}/players/{playerKey} roster entry. -/
structure ClubPlayer where
  playfabId : Option String := none
  name : Option String := none
  totalPoints : ℚ := 0
  seasons : List (Nat × SeasonData) := []
  tiers : List (String × TierStats) := []
deriving Repr, DecidableEq

/-- One clubs/{clubId} node. -/
structure Club where
  name : Option String := none
  players : List (String × ClubPlayer) := []
  totalPoints : ℚ := 0
  seasons : List (Nat × SeasonData) := []
  tiers : List (String × TierStats) := []
deriving Repr, DecidableEq

/-- One players/{playerId} node of the individual-results collection. -/
structure PlayerRec where
  totalPoints : ℚ := 0
  isRegistered : Option Bool := none
  name : Option String := none
  trophyCount : Option ℚ := none
  seasons : List (Nat × SeasonData) := []
  tiers : List (String × TierStats) := []
deriving Repr, DecidableEq

/-- The database state the pipeline touches, plus the season number loaded
once per run by loadCurrentSeason. -/
structure DbState where
  clubs : List (String × Club) := []
  players : List (String × PlayerRec) := []
  fetchedTournaments : List String := []
  clubsSummary : List (String × ℚ) := []
  currentSeason : Nat := 1
deriving Repr, DecidableEq

/-- One tournament of the feed response. -/
structure Tournament where
  tournamentId : String
  name : Option String := none
deriving Repr, DecidableEq

/-! ### fetchClubsAndPlayers (src/update-node.js lines 408-445) -/

/-- Build the playersCache from the clubs node: clubs without a (truthy)
name or without players are skipped, as are roster entries without a
playfabId or name; cache keys are normalized PlayFab ids. -/
def fetchClubsAndPlayers (clubs : List (String × Club)) : List (String × PlayerInfo) :=
  clubs.foldl
    (fun cache entry =>
      match entry.2.name with
      | none => cache
      | some clubName =>
        if clubName = "" || entry.2.players = [] then cache
        else
          entry.2.players.foldl
            (fun cache pentry =>
              match pentry.2.playfabId, pentry.2.name with
              | some pfid, some pname =>
                if pfid = "" || pname = "" then cache
                else
                  aset cache (normalizePlayfabId pfid)
                    { name := pname, clubName := clubName,
                      clubId := some entry.1, playerId := some pentry.1 }
              | _, _ => cache)
            cache)
    []

/-! ### groupPlayersByTeam (src/update-node.js lines 748-793) -/

/-- The placeholder identity used for a competitor absent from the cache. -/
def unregisteredInfo : PlayerInfo :=
  { name := "Unknown Player", clubName := "No Club", clubId := none, playerId := none }

/-- Group participant rows by partyId.  The lookup id is the raw row id
upper-cased (the source does not strip whitespace here).  Rows with a
falsy id or partyId, or a placement outside 1-4, are skipped. -/
def groupPlayersByTeam (tournamentData : List Row) (players : List (String × PlayerInfo)) :
    List (String × Team) :=
  tournamentData.foldl
    (fun teams row =>
      match row.userPlayfabId, row.partyId, row.userPlace with
      | some rawId, some partyId, some placement =>
        let playerId := upperStr rawId
        if playerId = "" || partyId = "" || placement < 1 || placement > 4 then teams
        else
          let cached := alookup players playerId
          let playerInfo := cached.getD unregisteredInfo
          let team0 := (alookup teams partyId).getD {}
          let team1 : Team :=
            { placements := team0.placements ++ [placement],
              clubNames := team0.clubNames ++ [playerInfo.clubName],
              playerIds := team0.playerIds ++ [playerId],
              playerNames := team0.playerNames ++ [playerInfo.name],
              hasUnregisteredPlayers := team0.hasUnregisteredPlayers || cached.isNone }
          aset teams partyId team1
      | _, _, _ => teams)
    []

/-! ### sortTeamsByPlacement (src/update-node.js lines 800-811)

JS Array.prototype.sort with the comparator bestPlacementA - bestPlacementB
is a stable sort by the best (minimum) placement; it is embedded as a
stable insertion sort by that key. -/

/-- Math.min spread over a team's placements (teams built by
groupPlayersByTeam always have at least one row). -/
def bestPlacement : List Int → Int
  | [] => 0
  | p :: ps => ps.foldl min p

/-- The sort key of one teams entry. -/
def teamKey (e : String × Team) : Int :=
  bestPlacement e.2.placements

/-- Insert an entry after every entry whose key is not larger (keeps equal
keys in arrival order). -/
def sortInsert (x : String × Team) : List (String × Team) → List (String × Team)
  | [] => [x]
  | y :: ys => if teamKey y ≤ teamKey x then y :: sortInsert x ys else x :: y :: ys

/-- Stable sort of the teams by best placement. -/
def sortTeamsByPlacement (teams : List (String × Team)) : List (String × Team) :=
  teams.foldl (fun acc t => sortInsert t acc) []

/-! ### The per-entity write helpers (src/update-node.js lines 986-1344) -/

/-- Add one to the named counter of an existing tier-stats node
(ref.update with the computed field name). -/
def bumpStat (stats : TierStats) (field : String) : TierStats :=
  if field = "first" then { stats with first := stats.first + 1 }
  else if field = "second" then { stats with second := stats.second + 1 }
  else if field = "third" then { stats with third := stats.third + 1 }
  else stats

/-- findClubIdByName: the scan inside updateClubPoints and
updateClubTournamentStats for the first club whose name field equals the
given name. -/
def findClubIdByName : List (String × Club) → String → Option String
  | [], _ => none
  | e :: rest, clubName =>
    if e.2.name = some clubName then some e.1 else findClubIdByName rest clubName

/-- updateClubPoints (lines 986-1021): add points to the club's lifetime
total and to its seasons/{currentSeason} total, mirror the lifetime total
into clubs_summary; a missing club is only warned about. -/
def updateClubPoints (st : DbState) (clubName : String) (points : ℚ) : DbState :=
  match findClubIdByName st.clubs clubName with
  | none => st
  | some clubId =>
    match alookup st.clubs clubId with
    | none => st
    | some club =>
      let sd := (alookup club.seasons st.currentSeason).getD {}
      let club' : Club :=
        { club with
          totalPoints := club.totalPoints + points,
          seasons := aset club.seasons st.currentSeason
            { sd with totalPoints := sd.totalPoints + points } }
      { st with
        clubs := aset st.clubs clubId club',
        clubsSummary := aset st.clubsSummary clubId (club.totalPoints + points) }

/-- updateClubTournamentStats (lines 1029-1080): for a known tier, make
sure the season and overall tier-stats nodes of the club exist, then add
one to the placement counter named by getStatFieldForPlacement. -/
def updateClubTournamentStats (st : DbState) (clubName tier : String) (placement : Int) :
    DbState :=
  if tier = "Unknown" then st
  else
    match findClubIdByName st.clubs clubName with
    | none => st
    | some clubId =>
      match alookup st.clubs clubId with
      | none => st
      | some club =>
        let sd := (alookup club.seasons st.currentSeason).getD {}
        let seasonTier := (alookup sd.tiers tier).getD {}
        let overallTier := (alookup club.tiers tier).getD {}
        let club' : Club :=
          match getStatFieldForPlacement placement with
          | some statField =>
            { club with
              seasons := aset club.seasons st.currentSeason
                { sd with tiers := aset sd.tiers tier (bumpStat seasonTier statField) },
              tiers := aset club.tiers tier (bumpStat overallTier statField) }
          | none =>
            { club with
              seasons := aset club.seasons st.currentSeason
                { sd with tiers := aset sd.tiers tier seasonTier },
              tiers := aset club.tiers tier overallTier }
        { st with clubs := aset st.clubs clubId club' }

/-- updateIndividualPlayerResult (lines 1089-1189): for a known tier,
create or refresh the players/{playerId} node, make sure its season node
and both tier-stats nodes exist, add one to the placement counter, and add
the points to the lifetime and season totals.  For tier Unknown the source
returns before any write. -/
def updateIndividualPlayerResult (st : DbState) (playerId tier : String) (placement : Int)
    (points : ℚ) : DbState :=
  if tier = "Unknown" then st
  else
    let existing := alookup st.players playerId
    let isReg := (existing.map (fun r => r.isRegistered.getD false)).getD false
    let rec0 : PlayerRec :=
      match existing with
      | none => { totalPoints := 0, seasons := [], isRegistered := some isReg }
      | some r =>
        if r.isRegistered ≠ some isReg then { r with isRegistered := some isReg } else r
    let rec1 : PlayerRec :=
      match alookup rec0.seasons st.currentSeason with
      | none => { rec0 with seasons := aset rec0.seasons st.currentSeason { totalPoints := 0 } }
      | some _ => rec0
    let sd := (alookup rec1.seasons st.currentSeason).getD {}
    let seasonTier := (alookup sd.tiers tier).getD {}
    let overallTier := (alookup rec1.tiers tier).getD {}
    let rec2 : PlayerRec :=
      match getStatFieldForPlacement placement with
      | some statField =>
        { rec1 with
          seasons := aset rec1.seasons st.currentSeason
            { sd with tiers := aset sd.tiers tier (bumpStat seasonTier statField) },
          tiers := aset rec1.tiers tier (bumpStat overallTier statField) }
      | none =>
        { rec1 with
          seasons := aset rec1.seasons st.currentSeason
            { sd with tiers := aset sd.tiers tier seasonTier },
          tiers := aset rec1.tiers tier overallTier }
    let curTotal := (existing.map (fun r => r.totalPoints)).getD 0
    let sd2 := (alookup rec2.seasons st.currentSeason).getD {}
    let rec3 : PlayerRec :=
      { rec2 with
        totalPoints := curTotal + points,
        seasons := aset rec2.seasons st.currentSeason
          { sd2 with totalPoints := sd2.totalPoints + points } }
    { st with players := aset st.players playerId rec3 }

/-- The scan of one club's roster inside findPlayerLocation. -/
def findInClubPlayers : List (String × ClubPlayer) → String → Option String
  | [], _ => none
  | e :: rest, pid =>
    match e.2.playfabId with
    | some raw =>
      if normalizePlayfabId raw = pid then some e.1 else findInClubPlayers rest pid
    | none => findInClubPlayers rest pid

/-- findPlayerLocation (lines 1287-1308): first (clubId, playerKey) whose
normalized playfabId equals the given id. -/
def findPlayerLocation : List (String × Club) → String → Option (String × String)
  | [], _ => none
  | e :: rest, pid =>
    match findInClubPlayers e.2.players pid with
    | some playerKey => some (e.1, playerKey)
    | none => findPlayerLocation rest pid

/-- updatePlayerPoints (lines 1196-1225): add points to a located roster
player's lifetime and season totals; a missing player is only warned
about. -/
def updatePlayerPoints (st : DbState) (playerId : String) (points : ℚ) : DbState :=
  match findPlayerLocation st.clubs playerId with
  | none => st
  | some loc =>
    match alookup st.clubs loc.1 with
    | none => st
    | some club =>
      match alookup club.players loc.2 with
      | none => st
      | some p =>
        let sd := (alookup p.seasons st.currentSeason).getD {}
        let p' : ClubPlayer :=
          { p with
            totalPoints := p.totalPoints + points,
            seasons := aset p.seasons st.currentSeason
              { sd with totalPoints := sd.totalPoints + points } }
        { st with clubs := aset st.clubs loc.1 { club with players := aset club.players loc.2 p' } }

/-- updatePlayerTournamentStats (lines 1233-1280): for a known tier, make
sure the located roster player's season and overall tier-stats nodes
exist, then add one to the placement counter. -/
def updatePlayerTournamentStats (st : DbState) (playerId tier : String) (placement : Int) :
    DbState :=
  if tier = "Unknown" then st
  else
    match findPlayerLocation st.clubs playerId with
    | none => st
    | some loc =>
      match alookup st.clubs loc.1 with
      | none => st
      | some club =>
        match alookup club.players loc.2 with
        | none => st
        | some p =>
          let sd := (alookup p.seasons st.currentSeason).getD {}
          let seasonTier := (alookup sd.tiers tier).getD {}
          let overallTier := (alookup p.tiers tier).getD {}
          let p' : ClubPlayer :=
            match getStatFieldForPlacement placement with
            | some statField =>
              { p with
                seasons := aset p.seasons st.currentSeason
                  { sd with tiers := aset sd.tiers tier (bumpStat seasonTier statField) },
                tiers := aset p.tiers tier (bumpStat overallTier statField) }
            | none =>
              { p with
                seasons := aset p.seasons st.currentSeason
                  { sd with tiers := aset sd.tiers tier seasonTier },
                tiers := aset p.tiers tier overallTier }
          { st with
            clubs := aset st.clubs loc.1 { club with players := aset club.players loc.2 p' } }

/-! ### processTeamResults (src/update-node.js lines 895-969) -/

/-- The distinct club names of the team's members, the placeholder club
excluded (new Set of the filtered clubNames; only its size is consulted). -/
def uniqueClubs (team : Team) : List String :=
  (team.clubNames.filter (fun c => c != "No Club")).dedup

/-- Club-award eligibility as computed by the source: exactly 3 playerIds,
exactly one distinct real club, and all 3 clubNames real. -/
def allPlayersFromSameClub (team : Team) : Bool :=
  (team.playerIds.length == 3) && ((uniqueClubs team).length == 1)
    && ((team.clubNames.filter (fun c => c != "No Club")).length == 3)

/-- The processing-result object returned per team. -/
structure TeamResult where
  processed : Bool
  clubName : Option String := none
  pointsAwarded : ℚ := 0
  placement : Int := 0
  playerCount : Nat := 0
  individualResults : Nat := 0
  reason : Option String := none
deriving Repr, DecidableEq

/-- The unconditional first loop of processTeamResults: record an
individual result for every member. -/
def runIndividualLoop (st : DbState) (team : Team) (pts : List ℚ) (tier : String) : DbState :=
  (team.playerIds.zip team.placements).foldl
    (fun s e => updateIndividualPlayerResult s e.1 tier e.2 (pointsAt pts e.2)) st

/-- The second loop of processTeamResults, run only for an eligible team:
update each cache-registered member inside the clubs collection. -/
def runRosterLoop (st : DbState) (team : Team) (pts : List ℚ) (tier : String)
    (players : List (String × PlayerInfo)) : DbState :=
  (team.playerIds.zip team.placements).foldl
    (fun s e =>
      if (alookup players e.1).isSome then
        updatePlayerTournamentStats (updatePlayerPoints s e.1 (pointsAt pts e.2)) e.1 tier e.2
      else s)
    st

/-- The failure reason string of the source's fall-through return. -/
def skipReason (team : Team) : String :=
  if team.playerIds.length ≠ 3 then "Invalid team size"
  else if ¬ allPlayersFromSameClub team then "Not all players from same registered club"
  else "Club already awarded"

/-- processTeamResults: always run the individual loop; for an eligible
team also run the roster loop and, when its club was not yet awarded in
this tournament, the club-level award keyed on team.placements[0].
Returns the result object, the updated awarded-club set and the updated
state. -/
def processTeamResults (team : Team) (pointsForPlacement : List ℚ) (tier : String)
    (clubsAlreadyAwarded : List String) (players : List (String × PlayerInfo))
    (st : DbState) : TeamResult × List String × DbState :=
  let placement := team.placements.headD 0
  let pointsAwarded := pointsAt pointsForPlacement placement
  let st1 := runIndividualLoop st team pointsForPlacement tier
  let st2 :=
    if allPlayersFromSameClub team then runRosterLoop st1 team pointsForPlacement tier players
    else st1
  let skip : TeamResult × List String × DbState :=
    ({ processed := false, reason := some (skipReason team),
       individualResults := team.playerIds.length }, clubsAlreadyAwarded, st2)
  if allPlayersFromSameClub team then
    match team.clubNames.find? (fun c => c != "No Club") with
    | some clubName =>
      if clubName ≠ "" ∧ clubName ∉ clubsAlreadyAwarded then
        let st3 :=
          updateClubTournamentStats (updateClubPoints st2 clubName pointsAwarded)
            clubName tier placement
        ({ processed := true, clubName := some clubName, pointsAwarded := pointsAwarded,
           placement := placement, playerCount := team.playerIds.length,
           individualResults := team.playerIds.length },
         clubName :: clubsAlreadyAwarded, st3)
      else skip
    | none => skip
  else skip

/-! ### processTournamentResults (src/update-node.js lines 691-740) -/

/-- The sequential for-loop over the sorted teams, threading the state and
the clubsAlreadyAwarded set and collecting each team's result object. -/
def processTeamsLoop (pts : List ℚ) (tier : String) (players : List (String × PlayerInfo)) :
    List (String × Team) → List String → DbState → DbState × List String × List TeamResult
  | [], awarded, st => (st, awarded, [])
  | e :: rest, awarded, st =>
    let out := processTeamResults e.2 pts tier awarded players st
    let outRest := processTeamsLoop pts tier players rest out.2.1 out.2.2
    (outRest.1, outRest.2.1, out.1 :: outRest.2.2)

/-- processTournamentResults: reload the player cache, group and sort the
teams, look the tier's points up and process every team in order. -/
def processTournamentResults (tournamentData : List Row) (tier : String) (st : DbState) :
    DbState × List TeamResult :=
  let players := fetchClubsAndPlayers st.clubs
  let teams := groupPlayersByTeam tournamentData players
  let sortedTeams := sortTeamsByPlacement teams
  let pointsForPlacement := getPointsMapping tier
  let out := processTeamsLoop pointsForPlacement tier players sortedTeams [] st
  (out.1, out.2.2)

/-! ### fetchAndProcessTournaments (src/update-node.js lines 473-543) and
the processed-marker store (lines 620-643) -/

/-- isTournamentAlreadyProcessed: existence check of the
fetchedTournaments/{tournamentId} marker. -/
def isTournamentAlreadyProcessed (st : DbState) (tournamentId : String) : Bool :=
  st.fetchedTournaments.contains tournamentId

/-- markTournamentAsProcessed: write the marker (existence only). -/
def markTournamentAsProcessed (st : DbState) (tournamentId : String) : DbState :=
  if st.fetchedTournaments.contains tournamentId then st
  else { st with fetchedTournaments := st.fetchedTournaments ++ [tournamentId] }

/-- One iteration of the tournament loop: classify the tier, consult the
marker, and only when it is absent process the participant rows (supplied
by the feed as a function of the tournament id) and then write the
marker. -/
def processOneTournament (fetchUsers : String → List Row) (st : DbState) (t : Tournament) :
    DbState :=
  let tier := getTierFromName t.name
  if isTournamentAlreadyProcessed st t.tournamentId then st
  else
    markTournamentAsProcessed
      (processTournamentResults (fetchUsers t.tournamentId) tier st).1
      t.tournamentId

/-- The batch loop over the fetched tournament list. -/
def fetchAndProcessTournaments (fetchUsers : String → List Row) (tournaments : List Tournament)
    (st : DbState) : DbState :=
  tournaments.foldl (processOneTournament fetchUsers) st

/-! ### Observation helpers for stating the claims -/

/-- Lifetime totalPoints of clubs/{clubId} (0 when absent). -/
def clubTotalPoints (st : DbState) (clubId : String) : ℚ :=
  ((alookup st.clubs clubId).map (fun c => c.totalPoints)).getD 0

/-- Season totalPoints of clubs/{clubId} (0 when absent). -/
def clubSeasonPoints (st : DbState) (clubId : String) (season : Nat) : ℚ :=
  (((alookup st.clubs clubId).map
    (fun c => ((alookup c.seasons season).getD {}).totalPoints)).getD 0)

/-- Overall tier counters of clubs/{clubId} (all zero when absent). -/
def clubTierCounters (st : DbState) (clubId : String) (tier : String) : TierStats :=
  ((alookup st.clubs clubId).map (fun c => (alookup c.tiers tier).getD {})).getD {}

/-- Season tier counters of clubs/{clubId} (all zero when absent). -/
def clubSeasonTierCounters (st : DbState) (clubId : String) (season : Nat) (tier : String) :
    TierStats :=
  ((alookup st.clubs clubId).map
    (fun c => (alookup ((alookup c.seasons season).getD {}).tiers tier).getD {})).getD {}

/-- Lifetime totalPoints of players/{playerId} (0 when absent). -/
def playerTotalPoints (st : DbState) (playerId : String) : ℚ :=
  ((alookup st.players playerId).map (fun p => p.totalPoints)).getD 0

/-- Season totalPoints of players/{playerId} (0 when absent). -/
def playerSeasonPoints (st : DbState) (playerId : String) (season : Nat) : ℚ :=
  (((alookup st.players playerId).map
    (fun p => ((alookup p.seasons season).getD {}).totalPoints)).getD 0)

/-- Overall tier counters of players/{playerId} (all zero when absent). -/
def playerTierCounters (st : DbState) (playerId : String) (tier : String) : TierStats :=
  ((alookup st.players playerId).map (fun p => (alookup p.tiers tier).getD {})).getD {}

/-- Season tier counters of players/{playerId} (all zero when absent). -/
def playerSeasonTierCounters (st : DbState) (playerId : String) (season : Nat) (tier : String) :
    TierStats :=
  ((alookup st.players playerId).map
    (fun p => (alookup ((alookup p.seasons season).getD {}).tiers tier).getD {})).getD {}

/-- Lifetime totalPoints of a clubs/{clubId}/players/{playerKey} roster
entry (0 when absent). -/
def rosterPlayerPoints (st : DbState) (clubId playerKey : String) : ℚ :=
  (((alookup st.clubs clubId).map
    (fun c => ((alookup c.players playerKey).map (fun p => p.totalPoints)).getD 0)).getD 0)

/-- Season totalPoints of a roster entry (0 when absent). -/
def rosterPlayerSeasonPoints (st : DbState) (clubId playerKey : String) (season : Nat) : ℚ :=
  (((alookup st.clubs clubId).map
    (fun c => ((alookup c.players playerKey).map
      (fun p => ((alookup p.seasons season).getD {}).totalPoints)).getD 0)).getD 0)

/-- The clubs that actually received a team-level award in a result list. -/
def clubAwards (results : List TeamResult) : List String :=
  results.filterMap (fun r => if r.processed then r.clubName else none)

/-- Two states agree on every aggregated point total and placement counter
the pipeline maintains (the individual-results collection verbatim, and
every club-level and roster-level observation). -/
def samePoints (s t : DbState) : Prop :=
  s.players = t.players
  ∧ (∀ cid, clubTotalPoints s cid = clubTotalPoints t cid)
  ∧ (∀ cid sea, clubSeasonPoints s cid sea = clubSeasonPoints t cid sea)
  ∧ (∀ cid tier, clubTierCounters s cid tier = clubTierCounters t cid tier)
  ∧ (∀ cid sea tier, clubSeasonTierCounters s cid sea tier = clubSeasonTierCounters t cid sea tier)
  ∧ (∀ cid pk, rosterPlayerPoints s cid pk = rosterPlayerPoints t cid pk)
  ∧ (∀ cid pk sea, rosterPlayerSeasonPoints s cid pk sea = rosterPlayerSeasonPoints t cid pk sea)

/-! ### Concrete scenario fixtures -/

/-- A registered club with a three-player roster. -/
def clubARoster : Club :=
  { name := some "Club A",
    players := [("p1", { playfabId := some "A1", name := some "Alice" }),
                ("p2", { playfabId := some "A2", name := some "Bob" }),
                ("p3", { playfabId := some "A3", name := some "Cara" })] }

/-- Initial database: one registered club, empty individual-results
collection, season 1, no processed markers. -/
def stMain : DbState :=
  { clubs := [("clubA", clubARoster)] }

/-- Participant rows of the end-to-end scenario: four 3-member teams on
placements 1-4; the placement-2 team consists of the three Club A
members, the others are unregistered. -/
def rowsMain : List Row :=
  [{ userPlayfabId := some "U11", userPlace := some 1, partyId := some "t1" },
   { userPlayfabId := some "U12", userPlace := some 1, partyId := some "t1" },
   { userPlayfabId := some "U13", userPlace := some 1, partyId := some "t1" },
   { userPlayfabId := some "A1", userPlace := some 2, partyId := some "t2" },
   { userPlayfabId := some "A2", userPlace := some 2, partyId := some "t2" },
   { userPlayfabId := some "A3", userPlace := some 2, partyId := some "t2" },
   { userPlayfabId := some "U31", userPlace := some 3, partyId := some "t3" },
   { userPlayfabId := some "U32", userPlace := some 3, partyId := some "t3" },
   { userPlayfabId := some "U33", userPlace := some 3, partyId := some "t3" },
   { userPlayfabId := some "U41", userPlace := some 4, partyId := some "t4" },
   { userPlayfabId := some "U42", userPlace := some 4, partyId := some "t4" },
   { userPlayfabId := some "U43", userPlace := some 4, partyId := some "t4" }]

/-- The state after processing the scenario tournament at tier silverEu1
(the tier of the name EU Silver Cup 1). -/
def finalMain : DbState :=
  (processTournamentResults rowsMain "silverEu1" stMain).1

/-- Rows of one all-Club-A team whose first-listed row has placement 2
while the later rows have placement 1 (minimum 1). -/
def rowsHeadMin : List Row :=
  [{ userPlayfabId := some "A1", userPlace := some 2, partyId := some "t1" },
   { userPlayfabId := some "A2", userPlace := some 1, partyId := some "t1" },
   { userPlayfabId := some "A3", userPlace := some 1, partyId := some "t1" }]

/-- The state after processing the mixed-placement team at tier silverEu1. -/
def finalHeadMin : DbState :=
  (processTournamentResults rowsHeadMin "silverEu1" stMain).1

/-- An all-Club-A team on placement 1. -/
def teamA1 : Team :=
  { placements := [1, 1, 1], clubNames := ["Club A", "Club A", "Club A"],
    playerIds := ["A1", "A2", "A3"], playerNames := ["Alice", "Bob", "Cara"] }

/-- A second all-Club-A team on placement 2. -/
def teamA2 : Team :=
  { placements := [2, 2, 2], clubNames := ["Club A", "Club A", "Club A"],
    playerIds := ["A4", "A5", "A6"], playerNames := ["Dan", "Eve", "Fay"] }

/-! ## Supporting lemmas -/

theorem alookup_aset {κ α : Type} [DecidableEq κ] (m : List (κ × α)) (k k' : κ) (v : α) :
    alookup (aset m k v) k' = if k = k' then some v else alookup m k' := by
  induction m with
  | nil => by_cases h : k = k' <;> simp [aset, alookup, h]
  | cons e rest ih =>
    by_cases h1 : e.1 = k
    · by_cases h2 : k = k' <;> simp [aset, alookup, h1, h2]
    · by_cases h2 : e.1 = k'
      · have h3 : ¬ k = k' := fun hh => h1 (h2.trans hh.symm)
        have h4 : ¬ k' = k := fun hh => h3 hh.symm
        simp [aset, alookup, h1, h2, h3, h4]
      · simp [aset, alookup, h1, h2, ih]

theorem foldl_keep {α β : Type} (P : β → Prop) {f : β → α → β}
    (h : ∀ b a, P b → P (f b a)) :
    ∀ (l : List α) (b : β), P b → P (List.foldl f b l) := by
  intro l
  induction l with
  | nil => intro b hb; exact hb
  | cons x xs ih => intro b hb; exact ih (f b x) (h b x hb)

theorem foldl_fix {α β : Type} {f : β → α → β} (h : ∀ b a, f b a = b) :
    ∀ (l : List α) (b : β), List.foldl f b l = b := by
  intro l
  induction l with
  | nil => intro b; rfl
  | cons x xs ih => intro b; rw [List.foldl_cons, h]; exact ih b

theorem updateClubPoints_parts (st : DbState) (cn : String) (p : ℚ) :
    (updateClubPoints st cn p).players = st.players
    ∧ (updateClubPoints st cn p).fetchedTournaments = st.fetchedTournaments
    ∧ (updateClubPoints st cn p).currentSeason = st.currentSeason := by
  unfold updateClubPoints
  repeat' split
  all_goals exact ⟨rfl, rfl, rfl⟩

theorem updateClubTournamentStats_parts (st : DbState) (cn tier : String) (pl : Int) :
    (updateClubTournamentStats st cn tier pl).players = st.players
    ∧ (updateClubTournamentStats st cn tier pl).fetchedTournaments = st.fetchedTournaments
    ∧ (updateClubTournamentStats st cn tier pl).currentSeason = st.currentSeason := by
  unfold updateClubTournamentStats
  repeat' split
  all_goals exact ⟨rfl, rfl, rfl⟩

theorem updatePlayerPoints_parts (st : DbState) (pid : String) (p : ℚ) :
    (updatePlayerPoints st pid p).players = st.players
    ∧ (updatePlayerPoints st pid p).fetchedTournaments = st.fetchedTournaments
    ∧ (updatePlayerPoints st pid p).currentSeason = st.currentSeason := by
  unfold updatePlayerPoints
  repeat' split
  all_goals exact ⟨rfl, rfl, rfl⟩

theorem updatePlayerTournamentStats_parts (st : DbState) (pid tier : String) (pl : Int) :
    (updatePlayerTournamentStats st pid tier pl).players = st.players
    ∧ (updatePlayerTournamentStats st pid tier pl).fetchedTournaments = st.fetchedTournaments
    ∧ (updatePlayerTournamentStats st pid tier pl).currentSeason = st.currentSeason := by
  unfold updatePlayerTournamentStats
  repeat' split
  all_goals exact ⟨rfl, rfl, rfl⟩

theorem updateIndividualPlayerResult_parts (st : DbState) (pid tier : String) (pl : Int)
    (p : ℚ) :
    (updateIndividualPlayerResult st pid tier pl p).clubs = st.clubs
    ∧ (updateIndividualPlayerResult st pid tier pl p).clubsSummary = st.clubsSummary
    ∧ (updateIndividualPlayerResult st pid tier pl p).fetchedTournaments = st.fetchedTournaments
    ∧ (updateIndividualPlayerResult st pid tier pl p).currentSeason = st.currentSeason := by
  unfold updateIndividualPlayerResult
  split
  all_goals exact ⟨rfl, rfl, rfl, rfl⟩

theorem runIndividualLoop_parts (st : DbState) (team : Team) (pts : List ℚ) (tier : String) :
    (runIndividualLoop st team pts tier).clubs = st.clubs
    ∧ (runIndividualLoop st team pts tier).clubsSummary = st.clubsSummary
    ∧ (runIndividualLoop st team pts tier).fetchedTournaments = st.fetchedTournaments
    ∧ (runIndividualLoop st team pts tier).currentSeason = st.currentSeason := by
  unfold runIndividualLoop
  refine foldl_keep
    (fun s => s.clubs = st.clubs ∧ s.clubsSummary = st.clubsSummary
      ∧ s.fetchedTournaments = st.fetchedTournaments ∧ s.currentSeason = st.currentSeason)
    ?_ _ st ⟨rfl, rfl, rfl, rfl⟩
  intro b a hb
  have h := updateIndividualPlayerResult_parts b a.1 tier a.2 (pointsAt pts a.2)
  exact ⟨h.1.trans hb.1, h.2.1.trans hb.2.1, h.2.2.1.trans hb.2.2.1, h.2.2.2.trans hb.2.2.2⟩

theorem runRosterLoop_parts (st : DbState) (team : Team) (pts : List ℚ) (tier : String)
    (players : List (String × PlayerInfo)) :
    (runRosterLoop st team pts tier players).players = st.players
    ∧ (runRosterLoop st team pts tier players).fetchedTournaments = st.fetchedTournaments
    ∧ (runRosterLoop st team pts tier players).currentSeason = st.currentSeason := by
  unfold runRosterLoop
  refine foldl_keep
    (fun s => s.players = st.players ∧ s.fetchedTournaments = st.fetchedTournaments
      ∧ s.currentSeason = st.currentSeason)
    ?_ _ st ⟨rfl, rfl, rfl⟩
  intro b a hb
  split
  · have h1 := updatePlayerPoints_parts b a.1 (pointsAt pts a.2)
    have h2 := updatePlayerTournamentStats_parts (updatePlayerPoints b a.1 (pointsAt pts a.2))
      a.1 tier a.2
    exact ⟨h2.1.trans (h1.1.trans hb.1), h2.2.1.trans (h1.2.1.trans hb.2.1),
      h2.2.2.trans (h1.2.2.trans hb.2.2)⟩
  · exact hb

theorem processTeamResults_state (team : Team) (pts : List ℚ) (tier : String)
    (aw : List String) (players : List (String × PlayerInfo)) (st : DbState) :
    ((processTeamResults team pts tier aw players st).2.2.fetchedTournaments
        = st.fetchedTournaments)
    ∧ ((processTeamResults team pts tier aw players st).2.2.currentSeason = st.currentSeason)
    ∧ ((processTeamResults team pts tier aw players st).2.2.players
        = (runIndividualLoop st team pts tier).players) := by
  have hI := runIndividualLoop_parts st team pts tier
  have hR := runRosterLoop_parts (runIndividualLoop st team pts tier) team pts tier players
  by_cases hE : allPlayersFromSameClub team = true
  · simp only [processTeamResults]
    rw [if_pos hE, if_pos hE]
    split
    next clubName hfind =>
      split
      next hok =>
        have hCP := updateClubPoints_parts
          (runRosterLoop (runIndividualLoop st team pts tier) team pts tier players)
          clubName (pointsAt pts (team.placements.headD 0))
        have hCS := updateClubTournamentStats_parts
          (updateClubPoints
            (runRosterLoop (runIndividualLoop st team pts tier) team pts tier players)
            clubName (pointsAt pts (team.placements.headD 0)))
          clubName tier (team.placements.headD 0)
        exact ⟨hCS.2.1.trans (hCP.2.1.trans (hR.2.1.trans hI.2.2.1)),
          hCS.2.2.trans (hCP.2.2.trans (hR.2.2.trans hI.2.2.2)),
          hCS.1.trans (hCP.1.trans hR.1)⟩
      next hok =>
        exact ⟨hR.2.1.trans hI.2.2.1, hR.2.2.trans hI.2.2.2, hR.1⟩
    next hfind =>
      exact ⟨hR.2.1.trans hI.2.2.1, hR.2.2.trans hI.2.2.2, hR.1⟩
  · simp only [processTeamResults]
    rw [if_neg hE, if_neg hE]
    exact ⟨hI.2.2.1, hI.2.2.2, rfl⟩

theorem processTeamsLoop_state (pts : List ℚ) (tier : String)
    (players : List (String × PlayerInfo)) :
    ∀ (teams : List (String × Team)) (aw : List String) (st : DbState),
      ((processTeamsLoop pts tier players teams aw st).1.fetchedTournaments
          = st.fetchedTournaments)
      ∧ ((processTeamsLoop pts tier players teams aw st).1.currentSeason = st.currentSeason) := by
  intro teams
  induction teams with
  | nil => intro aw st; exact ⟨rfl, rfl⟩
  | cons e rest ih =>
    intro aw st
    simp only [processTeamsLoop]
    have hT := processTeamResults_state e.2 pts tier aw players st
    have hRest := ih (processTeamResults e.2 pts tier aw players st).2.1
      (processTeamResults e.2 pts tier aw players st).2.2
    exact ⟨hRest.1.trans hT.1, hRest.2.trans hT.2.1⟩

theorem processTournamentResults_state (rows : List Row) (tier : String) (st : DbState) :
    ((processTournamentResults rows tier st).1.fetchedTournaments = st.fetchedTournaments)
    ∧ ((processTournamentResults rows tier st).1.currentSeason = st.currentSeason) := by
  unfold processTournamentResults
  exact processTeamsLoop_state _ _ _ _ _ _

theorem markTournament_contains (st : DbState) (id : String) :
    ((markTournamentAsProcessed st id).fetchedTournaments.contains id) = true := by
  unfold markTournamentAsProcessed
  split
  · assumption
  · simp

theorem processOneTournament_skip (f : String → List Row) (st : DbState) (t : Tournament)
    (h : isTournamentAlreadyProcessed st t.tournamentId = true) :
    processOneTournament f st t = st := by
  unfold processOneTournament
  simp [h]

theorem processOneTournament_marker (f : String → List Row) (st : DbState) (t : Tournament) :
    isTournamentAlreadyProcessed (processOneTournament f st t) t.tournamentId = true := by
  unfold processOneTournament isTournamentAlreadyProcessed
  split
  · next h => exact h
  · exact markTournament_contains _ _

/-! ## Claims -/

/-- Claim C1: processing is idempotent per tournament id.  A tournament
whose id already carries a processed marker is skipped with no state
change at all (in particular no scoring write), and running the batch on
the same tournament id twice with the same participant rows produces
exactly the state of running it once. -/
theorem claim1_marker_idempotency (fetchUsers : String → List Row) (t : Tournament)
    (st : DbState) :
    (isTournamentAlreadyProcessed st t.tournamentId = true →
        processOneTournament fetchUsers st t = st)
    ∧ fetchAndProcessTournaments fetchUsers [t, t] st
        = fetchAndProcessTournaments fetchUsers [t] st := by
  refine ⟨processOneTournament_skip fetchUsers st t, ?_⟩
  simp only [fetchAndProcessTournaments, List.foldl]
  exact processOneTournament_skip _ _ _ (processOneTournament_marker _ _ _)

/-- Witness for C1 at a concrete already-marked tournament. -/
theorem claim1_marker_idempotency_witness :
    processOneTournament (fun _ => []) ({ fetchedTournaments := ["T1"] } : DbState)
        ⟨"T1", some "EU Silver Cup 1"⟩
      = ({ fetchedTournaments := ["T1"] } : DbState) :=
  (claim1_marker_idempotency (fun _ => []) ⟨"T1", some "EU Silver Cup 1"⟩
    ({ fetchedTournaments := ["T1"] } : DbState)).1 (by decide)

/-- Claim C8: getPointsMapping is a static total lookup: each known tier
maps to its fixed four-value vector, and Unknown as well as any
unrecognized string maps to the all-zero vector. -/
theorem claim8_points_table :
    (getPointsMapping "diamond" = [36, 18, 9, 9]
      ∧ getPointsMapping "platinum" = [18, 9, 4.5, 4.5]
      ∧ getPointsMapping "goldLimited" = [6, 3, 1.5, 1.5]
      ∧ getPointsMapping "gold" = [5, 2.5, 1.2, 1.2]
      ∧ getPointsMapping "silverEu2" = [2, 1, 0.5, 0.5]
      ∧ getPointsMapping "silverEu1" = [1.6, 0.8, 0.4, 0.4]
      ∧ getPointsMapping "silverUs1" = [1.4, 0.7, 0.3, 0.3]
      ∧ getPointsMapping "asia" = [1.2, 0.6, 0.3, 0.3]
      ∧ getPointsMapping "america" = [2, 1, 0.5, 0.5]
      ∧ getPointsMapping "silverUs2" = [1.2, 0.6, 0, 0]
      ∧ getPointsMapping "silverAsia1" = [1.8, 0.9, 0.4, 0.4]
      ∧ getPointsMapping "roundMadnessEu" = [10, 5, 2.5, 1.7]
      ∧ getPointsMapping "roundMadnessUs" = [7, 3.5, 1.7, 1.2]
      ∧ getPointsMapping "roundMadnessIndia" = [6.4, 3.2, 1.6, 1.1]
      ∧ getPointsMapping "halloweenCup" = [10, 5, 2.5, 2.5]
      ∧ getPointsMapping "Unknown" = [0, 0, 0, 0])
    ∧ (∀ tier : String, tier ∉ knownTiers → getPointsMapping tier = [0, 0, 0, 0]) := by
  constructor
  · decide
  · intro tier h
    simp only [knownTiers, List.mem_cons, List.not_mem_nil, or_false, not_or] at h
    obtain ⟨h1, h2, h3, h4, h5, h6, h7, h8, h9, h10, h11, h12, h13, h14, h15, h16⟩ := h
    simp only [getPointsMapping, h1, h2, h3, h4, h5, h6, h7, h8, h9, h10, h11, h12, h13,
      h14, h15, h16, if_false]

/-- Witness for C8 at a concrete unrecognized tier string. -/
theorem claim8_points_table_witness : getPointsMapping "mystery" = [0, 0, 0, 0] :=
  claim8_points_table.2 "mystery" (by decide)

/-- Counterexample to C5 as stated: the name Silver EU 1 Gold Limited
contains both gold and limited, yet classifies to silverEu1, not
goldLimited, because the silver rules run first. -/
theorem claim5_counterexample :
    getTierFromName (some "Silver EU 1 Gold Limited") = "silverEu1"
    ∧ getTierFromName (some "Silver EU 1 Gold Limited") ≠ "goldLimited" := by
  decide

/-- Claim C5 (amended): the documented examples classify to their specific
tiers, and a specific pattern always beats its generic superset: a name
containing gold and limited never classifies to the generic gold tier
(it classifies to goldLimited unless an even earlier rule matches), and a
name containing silver, eu and 1 always classifies to one of the specific
silver tiers checked first (silverEu1, or silverAsia1 when the earlier
singapore rule matches), never to a generic silver tier. -/
theorem claim5_precedence_amended :
    (getTierFromName (some "Gold Limited Cup") = "goldLimited"
      ∧ getTierFromName (some "EU Silver Cup 1") = "silverEu1")
    ∧ (∀ name : String, jsIncludes (lowerStr name) "gold" = true →
        jsIncludes (lowerStr name) "limited" = true →
        getTierFromName (some name) ≠ "gold")
    ∧ (∀ name : String, jsIncludes (lowerStr name) "silver" = true →
        jsIncludes (lowerStr name) "eu" = true →
        jsIncludes (lowerStr name) "1" = true →
        (getTierFromName (some name) = "silverEu1"
          ∨ getTierFromName (some name) = "silverAsia1")) := by
  refine ⟨by decide, ?_, ?_⟩
  · intro name h1 h2
    by_cases he : name = ""
    · subst he; exact absurd h1 (by decide)
    · simp only [getTierFromName, he, if_false, h1, h2, Bool.and_self, Bool.and_true,
        Bool.true_and, if_true]
      repeat' split
      all_goals decide
  · intro name h1 h2 h3
    by_cases he : name = ""
    · subst he; exact absurd h1 (by decide)
    · simp only [getTierFromName, he, if_false, h1, h2, h3, Bool.and_self, Bool.and_true,
        Bool.true_and, if_true]
      repeat' split
      all_goals simp

/-- Witness for C5 (amended) at concrete names. -/
theorem claim5_precedence_amended_witness :
    getTierFromName (some "gold limited open") ≠ "gold"
    ∧ (getTierFromName (some "silver eu cup 1") = "silverEu1"
        ∨ getTierFromName (some "silver eu cup 1") = "silverAsia1") :=
  ⟨claim5_precedence_amended.2.1 "gold limited open" (by decide) (by decide),
   claim5_precedence_amended.2.2 "silver eu cup 1" (by decide) (by decide) (by decide)⟩

/-- Claim C3, evaluated at the failing input: the roster cache is keyed by
the upper-cased, whitespace-stripped PlayFab id, but groupPlayersByTeam
looks rows up by the upper-cased id only.  A roster entry whose id
contains a space (cache key ABC1) is therefore missed by a row carrying
the same id (lookup key AB C1), and its player is recorded as
unregistered with the placeholder club. -/
theorem claim3_normalization_bug_eval :
    (let cache := fetchClubsAndPlayers
        [("c1", { name := some "Club A",
                  players := [("p1", { playfabId := some "AB C1", name := some "Alice" })] })]
     normalizePlayfabId "AB C1" = "ABC1"
     ∧ normalizePlayfabId "ab c1" = "ABC1"
     ∧ alookup cache "ABC1" = some { name := "Alice", clubName := "Club A",
                                     clubId := some "c1", playerId := some "p1" }
     ∧ upperStr "ab c1" = "AB C1"
     ∧ alookup cache (upperStr "ab c1") = none
     ∧ groupPlayersByTeam
         [{ userPlayfabId := some "ab c1", userPlace := some 1, partyId := some "t1" }] cache
       = [("t1", { placements := [1], clubNames := ["No Club"], playerIds := ["AB C1"],
                   playerNames := ["Unknown Player"], hasUnregisteredPlayers := true })]) := by
  decide

/-- Counterexample to C2 as stated: the silverEu1 2nd-place value is 0.8
(1.6 is the 1st-place value), so in the end-to-end scenario Club A's
total and each member's individual total increase by 0.8, not by 1.6. -/
theorem claim2_counterexample :
    pointsAt (getPointsMapping "silverEu1") 2 = 0.8
    ∧ clubTotalPoints finalMain "clubA" = clubTotalPoints stMain "clubA" + 0.8
    ∧ ¬ (clubTotalPoints finalMain "clubA" = clubTotalPoints stMain "clubA" + 1.6)
    ∧ playerTotalPoints finalMain "A1" = playerTotalPoints stMain "A1" + 0.8
    ∧ ¬ (playerTotalPoints finalMain "A1" = playerTotalPoints stMain "A1" + 1.6) := by
  decide

/-- Claim C2 (amended): the EU Silver Cup 1 scenario with four 3-member
teams and the all-Club-A team on placement 2: the name classifies to
silverEu1; Club A's season and lifetime totals increase by the tier's
2nd-place value of 0.8; its silverEu1 second counters (season and
lifetime) increase by 1; each of the three members' individual
totalPoints increases by 0.8; and the members of the 4th-place team get
their individual third counters incremented (placement 4 shares the third
field - there is no fourth counter). -/
theorem claim2_scenario_amended :
    getTierFromName (some "EU Silver Cup 1") = "silverEu1"
    ∧ clubTotalPoints finalMain "clubA" = clubTotalPoints stMain "clubA" + 0.8
    ∧ clubSeasonPoints finalMain "clubA" 1 = clubSeasonPoints stMain "clubA" 1 + 0.8
    ∧ (clubTierCounters finalMain "clubA" "silverEu1").second
        = (clubTierCounters stMain "clubA" "silverEu1").second + 1
    ∧ (clubSeasonTierCounters finalMain "clubA" 1 "silverEu1").second
        = (clubSeasonTierCounters stMain "clubA" 1 "silverEu1").second + 1
    ∧ playerTotalPoints finalMain "A1" = 0.8
    ∧ playerTotalPoints finalMain "A2" = 0.8
    ∧ playerTotalPoints finalMain "A3" = 0.8
    ∧ getStatFieldForPlacement 4 = some "third"
    ∧ (playerTierCounters finalMain "U41" "silverEu1").third = 1
    ∧ (playerTierCounters finalMain "U42" "silverEu1").third = 1
    ∧ (playerTierCounters finalMain "U43" "silverEu1").third = 1 := by
  decide

/-- Counterexample to C4 as stated: a same-club team whose first-listed
row has placement 2 while its minimum placement is 1 gets its club award
keyed on placement 2 - the second counter is bumped, the first counter
stays 0, and the points are the 2nd-place 0.8 instead of the 1st-place
1.6 that the minimum rule would give - so the club award depends on row
order, not on the minimum. -/
theorem claim4_counterexample :
    bestPlacement [2, 1, 1] = 1
    ∧ alookup (groupPlayersByTeam rowsHeadMin (fetchClubsAndPlayers stMain.clubs)) "t1"
        = some { placements := [2, 1, 1], clubNames := ["Club A", "Club A", "Club A"],
                 playerIds := ["A1", "A2", "A3"], playerNames := ["Alice", "Bob", "Cara"] }
    ∧ (clubTierCounters finalHeadMin "clubA" "silverEu1").second = 1
    ∧ (clubTierCounters finalHeadMin "clubA" "silverEu1").first = 0
    ∧ clubTotalPoints finalHeadMin "clubA" = 0.8
    ∧ pointsAt (getPointsMapping "silverEu1") (bestPlacement [2, 1, 1]) = 1.6 := by
  decide

theorem foldl_min_replicate (p : Int) : ∀ n : Nat, (List.replicate n p).foldl min p = p := by
  intro n
  induction n with
  | zero => rfl
  | succ m ih => rw [List.replicate_succ, List.foldl_cons, min_self]; exact ih

/-- Claim C4 (amended): the placement used for the club-level award - both
for the points vector and for the counter field - is the placement of the
team's first-observed member row (placements[0]); when all members share
one placement, as in well-formed party data, this coincides with the
team's minimum placement. -/
theorem claim4_first_row_placement (team : Team) (pts : List ℚ) (tier : String)
    (aw : List String) (players : List (String × PlayerInfo)) (st : DbState) :
    ((processTeamResults team pts tier aw players st).1.processed = true →
        (processTeamResults team pts tier aw players st).1.placement = team.placements.headD 0
        ∧ (processTeamResults team pts tier aw players st).1.pointsAwarded
            = pointsAt pts (team.placements.headD 0))
    ∧ (∀ (p : Int) (n : Nat), team.placements = List.replicate (n + 1) p →
        team.placements.headD 0 = bestPlacement team.placements) := by
  constructor
  · simp only [processTeamResults]
    repeat' split
    all_goals intro h
    all_goals first
      | exact ⟨rfl, rfl⟩
      | simp at h
  · intro p n hrep
    rw [hrep, List.replicate_succ]
    show p = bestPlacement (p :: List.replicate n p)
    unfold bestPlacement
    exact (foldl_min_replicate p n).symm

/-- Witness for C4 (amended) at a concrete awarded team. -/
theorem claim4_first_row_placement_witness :
    ((processTeamResults teamA1 (getPointsMapping "diamond") "diamond" [] [] {}).1.placement
        = teamA1.placements.headD 0
      ∧ (processTeamResults teamA1 (getPointsMapping "diamond") "diamond" [] [] {}).1.pointsAwarded
        = pointsAt (getPointsMapping "diamond") (teamA1.placements.headD 0))
    ∧ teamA1.placements.headD 0 = bestPlacement teamA1.placements :=
  ⟨(claim4_first_row_placement teamA1 (getPointsMapping "diamond") "diamond" [] [] {}).1
      (by decide),
   (claim4_first_row_placement teamA1 (getPointsMapping "diamond") "diamond" [] [] {}).2
      1 2 (by decide)⟩

/-- Counterexample to C10 as stated: for an Unknown-tier tournament the
individual stat write is not attempted at all (the update function
returns before touching the store), so no players-collection record is
created, while the same rows at a known tier do create records. -/
theorem claim10_counterexample :
    (processTournamentResults rowsMain "Unknown" stMain).1.players = []
    ∧ (processTournamentResults rowsMain "gold" stMain).1.players ≠ []
    ∧ updateIndividualPlayerResult stMain "A1" "Unknown" 1 0 = stMain := by
  decide

theorem filter_all_of_len {α : Type} {p : α → Bool} :
    ∀ l : List α, (List.filter p l).length = l.length → ∀ x ∈ l, p x = true := by
  intro l
  induction l with
  | nil => intro h x hx; cases hx
  | cons a l ih =>
    intro h x hx
    by_cases hpa : p a = true
    · rw [List.filter_cons_of_pos hpa] at h
      simp only [List.length_cons] at h
      rcases List.mem_cons.mp hx with rfl | hm
      · exact hpa
      · exact ih (by omega) x hm
    · exfalso
      rw [List.filter_cons_of_neg hpa] at h
      have hle := List.length_filter_le p l
      simp only [List.length_cons] at h
      omega

/-- Claim C6: a team is club-award eligible (per the source predicate) iff
it has exactly 3 members whose club names are one and the same registered
club, none the No Club placeholder; and whatever the eligibility outcome,
the individual-results collection after processing a team is exactly the
one produced by the unconditional per-member individual loop. -/
theorem claim6_eligibility :
    (∀ team : Team, team.clubNames.length = team.playerIds.length →
        (allPlayersFromSameClub team = true ↔
          (team.playerIds.length = 3
            ∧ ∃ cn, cn ≠ "No Club" ∧ team.clubNames = [cn, cn, cn])))
    ∧ (∀ (team : Team) (pts : List ℚ) (tier : String) (aw : List String)
        (players : List (String × PlayerInfo)) (st : DbState),
        (processTeamResults team pts tier aw players st).2.2.players
          = (runIndividualLoop st team pts tier).players) := by
  constructor
  · intro team hlen
    unfold allPlayersFromSameClub uniqueClubs
    simp only [Bool.and_eq_true, beq_iff_eq]
    constructor
    · rintro ⟨⟨h3, hu⟩, hf⟩
      refine ⟨h3, ?_⟩
      have hcl : team.clubNames.length = 3 := by rw [hlen, h3]
      obtain ⟨a, b, c, habc⟩ := List.length_eq_three.mp hcl
      rw [habc] at hf hu ⊢
      have hf' : (List.filter (fun s => s != "No Club") [a, b, c]).length
          = ([a, b, c] : List String).length := by simpa using hf
      have hall := filter_all_of_len [a, b, c] hf'
      have hfil : List.filter (fun s => s != "No Club") [a, b, c] = [a, b, c] :=
        List.filter_eq_self.mpr hall
      rw [hfil] at hu
      obtain ⟨d, hd⟩ := List.length_eq_one.mp hu
      have hmem : ∀ x ∈ ([a, b, c] : List String), x = d := by
        intro x hx
        have hx' : x ∈ ([a, b, c] : List String).dedup := List.mem_dedup.mpr hx
        rw [hd] at hx'
        simpa using hx'
      have hda : a = d := hmem a (by simp)
      have hdb : b = d := hmem b (by simp)
      have hdc : c = d := hmem c (by simp)
      refine ⟨d, ?_, by rw [hda, hdb, hdc]⟩
      have hpa := hall a (by simp)
      rw [hda] at hpa
      simpa using hpa
    · rintro ⟨h3, d, hdne, hcn⟩
      rw [hcn]
      have hall : ∀ x ∈ ([d, d, d] : List String), (x != "No Club") = true := by
        intro x hx
        have hx' : x = d := by simpa using hx
        subst hx'
        simpa using hdne
      have hfil : List.filter (fun s => s != "No Club") [d, d, d] = [d, d, d] :=
        List.filter_eq_self.mpr hall
      have hd1 : ([d] : List String).dedup = [d] := by
        rw [List.dedup_cons_of_not_mem (List.not_mem_nil d), List.dedup_nil]
      have hd2 : ([d, d] : List String).dedup = [d] := by
        rw [List.dedup_cons_of_mem (List.mem_singleton_self d), hd1]
      have hd3 : ([d, d, d] : List String).dedup = [d] := by
        rw [List.dedup_cons_of_mem (by simp), hd2]
      exact ⟨⟨h3, by rw [hfil, hd3]; rfl⟩, by rw [hfil]; rfl⟩
  · exact fun team pts tier aw players st =>
      (processTeamResults_state team pts tier aw players st).2.2

/-- Witness for C6 at a concrete eligible team. -/
theorem claim6_eligibility_witness : allPlayersFromSameClub teamA1 = true :=
  (claim6_eligibility.1 teamA1 (by decide)).mpr
    ⟨by decide, ⟨"Club A", by decide, by decide⟩⟩

theorem processTeamResults_award (team : Team) (pts : List ℚ) (tier : String)
    (aw : List String) (players : List (String × PlayerInfo)) (st : DbState) :
    ((processTeamResults team pts tier aw players st).1.processed = true →
        ∃ cn, (processTeamResults team pts tier aw players st).1.clubName = some cn
          ∧ cn ∉ aw
          ∧ (processTeamResults team pts tier aw players st).2.1 = cn :: aw)
    ∧ ((processTeamResults team pts tier aw players st).1.processed = false →
        (processTeamResults team pts tier aw players st).2.1 = aw) := by
  by_cases hE : allPlayersFromSameClub team = true
  · simp only [processTeamResults]
    rw [if_pos hE, if_pos hE]
    split
    next clubName hfind =>
      split
      next hok =>
        exact ⟨fun h => ⟨clubName, rfl, hok.2, rfl⟩, fun h => by simp at h⟩
      next hok =>
        exact ⟨fun h => by simp at h, fun h => rfl⟩
    next hfind =>
      exact ⟨fun h => by simp at h, fun h => rfl⟩
  · simp only [processTeamResults]
    rw [if_neg hE, if_neg hE]
    exact ⟨fun h => by simp at h, fun h => rfl⟩

/-- Claim C7: within one tournament every club receives at most one
team-level award: over any run of the per-team loop the list of awarded
clubs has no duplicates, and no award goes to a club already in the
initial awarded set - a later qualifying team of an already-credited club
is skipped for club credit. -/
theorem claim7_club_award_once (pts : List ℚ) (tier : String)
    (players : List (String × PlayerInfo)) :
    ∀ (teams : List (String × Team)) (aw : List String) (st : DbState),
      (clubAwards (processTeamsLoop pts tier players teams aw st).2.2).Nodup
      ∧ ∀ cn ∈ clubAwards (processTeamsLoop pts tier players teams aw st).2.2, cn ∉ aw := by
  intro teams
  induction teams with
  | nil =>
    intro aw st
    exact ⟨List.nodup_nil, by simp [clubAwards, processTeamsLoop]⟩
  | cons e rest ih =>
    intro aw st
    simp only [processTeamsLoop]
    have hA := processTeamResults_award e.2 pts tier aw players st
    have ihh := ih (processTeamResults e.2 pts tier aw players st).2.1
      (processTeamResults e.2 pts tier aw players st).2.2
    cases hproc : (processTeamResults e.2 pts tier aw players st).1.processed with
    | true =>
      obtain ⟨cn, hcn, hnotin, haw⟩ := hA.1 hproc
      simp only [clubAwards] at ihh ⊢
      simp only [List.filterMap_cons, hproc, eq_self_iff_true, if_true, hcn]
      rw [haw] at ihh
      rw [haw]
      constructor
      · rw [List.nodup_cons]
        refine ⟨fun hmem => ?_, ihh.1⟩
        exact absurd (List.mem_cons_self cn _) (ihh.2 cn hmem)
      · intro c hc
        rcases List.mem_cons.mp hc with rfl | hmem
        · exact hnotin
        · intro hcaw
          exact (ihh.2 c hmem) (List.mem_cons_of_mem cn hcaw)
    | false =>
      have haw2 := hA.2 hproc
      rw [haw2] at ihh
      simp only [clubAwards] at ihh ⊢
      simp only [List.filterMap_cons, hproc, Bool.false_eq_true, if_false]
      rw [haw2]
      exact ihh

/-- Witness for C7 at two same-club teams: the second qualifying Club A
team is skipped, so the award log stays duplicate-free and disjoint from
the initially-credited set. -/
theorem claim7_club_award_once_witness :
    (clubAwards (processTeamsLoop (getPointsMapping "diamond") "diamond" []
        [("x", teamA1), ("y", teamA2)] ["Club B"]
        ({} : DbState)).2.2).Nodup
    ∧ "Club A" ∉ ["Club B"] :=
  ⟨(claim7_club_award_once (getPointsMapping "diamond") "diamond" []
      [("x", teamA1), ("y", teamA2)] ["Club B"] ({} : DbState)).1,
   (claim7_club_award_once (getPointsMapping "diamond") "diamond" []
      [("x", teamA1), ("y", teamA2)] ["Club B"] ({} : DbState)).2 "Club A" (by decide)⟩

theorem sortInsert_perm (x : String × Team) :
    ∀ l : List (String × Team), List.Perm (sortInsert x l) (x :: l) := by
  intro l
  induction l with
  | nil => exact List.Perm.refl _
  | cons y ys ih =>
    unfold sortInsert
    split
    · exact (List.Perm.cons y ih).trans (List.Perm.swap x y ys)
    · exact List.Perm.refl _

theorem sortTeams_perm_aux :
    ∀ (ts acc : List (String × Team)),
      List.Perm (ts.foldl (fun acc t => sortInsert t acc) acc) (acc ++ ts) := by
  intro ts
  induction ts with
  | nil => intro acc; simp
  | cons t ts ih =>
    intro acc
    rw [List.foldl_cons]
    refine (ih (sortInsert t acc)).trans ?_
    refine (List.Perm.append_right ts (sortInsert_perm t acc)).trans ?_
    exact List.perm_middle.symm

theorem sortTeams_perm (ts : List (String × Team)) :
    List.Perm (sortTeamsByPlacement ts) ts := by
  have h := sortTeams_perm_aux ts []
  simpa [sortTeamsByPlacement] using h

theorem sortInsert_pairwise (x : String × Team) :
    ∀ l : List (String × Team), l.Pairwise (fun a b => teamKey a ≤ teamKey b) →
      (sortInsert x l).Pairwise (fun a b => teamKey a ≤ teamKey b) := by
  intro l
  induction l with
  | nil => intro _; exact List.pairwise_singleton _ x
  | cons y ys ih =>
    intro h
    rw [List.pairwise_cons] at h
    unfold sortInsert
    split
    next hle =>
      rw [List.pairwise_cons]
      refine ⟨fun z hz => ?_, ih h.2⟩
      rcases List.mem_cons.mp ((sortInsert_perm x ys).mem_iff.mp hz) with rfl | hmem
      · exact hle
      · exact h.1 z hmem
    next hle =>
      have hxy : teamKey x ≤ teamKey y := le_of_not_le hle
      rw [List.pairwise_cons]
      refine ⟨fun z hz => ?_, List.pairwise_cons.mpr h⟩
      rcases List.mem_cons.mp hz with rfl | hmem
      · exact hxy
      · exact hxy.trans (h.1 z hmem)

theorem sortTeams_pairwise (ts : List (String × Team)) :
    (sortTeamsByPlacement ts).Pairwise (fun a b => teamKey a ≤ teamKey b) := by
  unfold sortTeamsByPlacement
  exact foldl_keep (fun l => l.Pairwise (fun a b => teamKey a ≤ teamKey b))
    (fun l t hl => sortInsert_pairwise t l hl) ts [] List.Pairwise.nil

theorem sortInsert_filter (k : Int) (x : String × Team) :
    ∀ l : List (String × Team), l.Pairwise (fun a b => teamKey a ≤ teamKey b) →
      (sortInsert x l).filter (fun e => teamKey e == k)
        = l.filter (fun e => teamKey e == k)
            ++ (if teamKey x == k then [x] else []) := by
  intro l
  induction l with
  | nil =>
    intro _
    simp only [sortInsert, List.filter_nil, List.nil_append, List.filter_cons]
  | cons y ys ih =>
    intro h
    rw [List.pairwise_cons] at h
    unfold sortInsert
    split
    next hle =>
      rw [List.filter_cons, List.filter_cons]
      by_cases hy : (teamKey y == k) = true
      · rw [if_pos hy, if_pos hy, ih h.2, List.cons_append]
      · rw [if_neg hy, if_neg hy, ih h.2]
    next hle =>
      have hxy : teamKey x < teamKey y := lt_of_not_le hle
      by_cases hx : (teamKey x == k) = true
      · have hk : teamKey x = k := by simpa using hx
        have hnil : (y :: ys).filter (fun e => teamKey e == k) = [] := by
          rw [List.filter_eq_nil_iff]
          intro a ha
          have hya : teamKey y ≤ teamKey a := by
            rcases List.mem_cons.mp ha with rfl | hmem
            · exact le_refl _
            · exact h.1 a hmem
          have : k < teamKey a := lt_of_lt_of_le (hk ▸ hxy) hya
          simp only [beq_iff_eq]
          omega
        rw [List.filter_cons, hnil, if_pos hx, List.nil_append]
      · rw [List.filter_cons, if_neg hx, if_neg hx, List.append_nil]

theorem sortTeams_filter_aux (k : Int) :
    ∀ (ts acc : List (String × Team)),
      acc.Pairwise (fun a b => teamKey a ≤ teamKey b) →
      (ts.foldl (fun acc t => sortInsert t acc) acc).filter (fun e => teamKey e == k)
        = acc.filter (fun e => teamKey e == k) ++ ts.filter (fun e => teamKey e == k) := by
  intro ts
  induction ts with
  | nil => intro acc _; simp
  | cons t ts ih =>
    intro acc hacc
    rw [List.foldl_cons, ih (sortInsert t acc) (sortInsert_pairwise t acc hacc),
      sortInsert_filter k t acc hacc, List.filter_cons]
    by_cases ht : (teamKey t == k) = true
    · rw [if_pos ht, if_pos ht, List.append_assoc, List.singleton_append]
    · rw [if_neg ht, if_neg ht, List.append_nil]

theorem foldl_min_le : ∀ (ps : List Int) (p : Int),
    ps.foldl min p ≤ p ∧ ∀ q ∈ ps, ps.foldl min p ≤ q := by
  intro ps
  induction ps with
  | nil => intro p; exact ⟨le_refl p, by simp⟩
  | cons q ps ih =>
    intro p
    rw [List.foldl_cons]
    refine ⟨(ih (min p q)).1.trans (min_le_left p q), fun r hr => ?_⟩
    rcases List.mem_cons.mp hr with rfl | hmem
    · exact (ih (min p r)).1.trans (min_le_right p r)
    · exact (ih (min p q)).2 r hmem

theorem foldl_min_mem : ∀ (ps : List Int) (p : Int),
    ps.foldl min p = p ∨ ps.foldl min p ∈ ps := by
  intro ps
  induction ps with
  | nil => intro p; exact Or.inl rfl
  | cons q ps ih =>
    intro p
    rw [List.foldl_cons]
    rcases ih (min p q) with h | h
    · rcases min_choice p q with hm | hm
      · exact Or.inl (h.trans hm)
      · exact Or.inr (by rw [h, hm]; exact List.mem_cons_self q ps)
    · exact Or.inr (List.mem_cons_of_mem q h)

/-- Claim C9: sortTeamsByPlacement returns a permutation of its input (no
team dropped or duplicated), ordered ascending by each team's key, with
ties preserving first-observed relative order (the filter at each key
value is unchanged), and the key of a nonempty team is its minimum
placement. -/
theorem claim9_sort (teams : List (String × Team)) :
    List.Perm (sortTeamsByPlacement teams) teams
    ∧ (sortTeamsByPlacement teams).Pairwise (fun a b => teamKey a ≤ teamKey b)
    ∧ (∀ k : Int, (sortTeamsByPlacement teams).filter (fun e => teamKey e == k)
        = teams.filter (fun e => teamKey e == k))
    ∧ (∀ e : String × Team, e.2.placements ≠ [] →
        teamKey e ∈ e.2.placements ∧ ∀ p ∈ e.2.placements, teamKey e ≤ p) := by
  refine ⟨sortTeams_perm teams, sortTeams_pairwise teams, fun k => ?_, fun e hne => ?_⟩
  · have h := sortTeams_filter_aux k teams [] List.Pairwise.nil
    simpa [sortTeamsByPlacement] using h
  · obtain ⟨p, ps, hpl⟩ : ∃ p ps, e.2.placements = p :: ps := by
      cases hc : e.2.placements with
      | nil => exact absurd hc hne
      | cons a l => exact ⟨a, l, rfl⟩
    simp only [teamKey, hpl, bestPlacement]
    constructor
    · rcases foldl_min_mem ps p with h | h
      · rw [h]; exact List.mem_cons_self p ps
      · exact List.mem_cons_of_mem p h
    · intro q hq
      rcases List.mem_cons.mp hq with rfl | hmem
      · exact (foldl_min_le ps q).1
      · exact (foldl_min_le ps p).2 q hmem

/-- Witness for C9 at a concrete team list. -/
theorem claim9_sort_witness :
    teamKey ("a", teamA1) ∈ teamA1.placements
    ∧ ∀ p ∈ teamA1.placements, teamKey ("a", teamA1) ≤ p :=
  (claim9_sort [("a", teamA1)]).2.2.2 ("a", teamA1) (by decide)

theorem samePoints_refl (s : DbState) : samePoints s s :=
  ⟨rfl, fun _ => rfl, fun _ _ => rfl, fun _ _ => rfl, fun _ _ _ => rfl, fun _ _ => rfl,
   fun _ _ _ => rfl⟩

theorem samePoints_trans {s t u : DbState} (h1 : samePoints s t) (h2 : samePoints t u) :
    samePoints s u :=
  ⟨h1.1.trans h2.1,
   fun cid => (h1.2.1 cid).trans (h2.2.1 cid),
   fun cid sea => (h1.2.2.1 cid sea).trans (h2.2.2.1 cid sea),
   fun cid tier => (h1.2.2.2.1 cid tier).trans (h2.2.2.2.1 cid tier),
   fun cid sea tier => (h1.2.2.2.2.1 cid sea tier).trans (h2.2.2.2.2.1 cid sea tier),
   fun cid pk => (h1.2.2.2.2.2.1 cid pk).trans (h2.2.2.2.2.2.1 cid pk),
   fun cid pk sea => (h1.2.2.2.2.2.2 cid pk sea).trans (h2.2.2.2.2.2.2 cid pk sea)⟩

theorem pointsAt_zeros (p : Int) : pointsAt [0, 0, 0, 0] p = 0 := by
  unfold pointsAt
  split
  · generalize (p - 1).toNat = n
    rcases n with _ | _ | _ | _ | n <;>
      simp [List.getD_cons_succ, List.getD_cons_zero]
  · rfl

theorem updateIndividualPlayerResult_unknown (st : DbState) (pid : String) (pl : Int)
    (p : ℚ) : updateIndividualPlayerResult st pid "Unknown" pl p = st := by
  unfold updateIndividualPlayerResult
  rw [if_pos rfl]

theorem updateClubTournamentStats_unknown (st : DbState) (cn : String) (pl : Int) :
    updateClubTournamentStats st cn "Unknown" pl = st := by
  unfold updateClubTournamentStats
  rw [if_pos rfl]

theorem updatePlayerTournamentStats_unknown (st : DbState) (pid : String) (pl : Int) :
    updatePlayerTournamentStats st pid "Unknown" pl = st := by
  unfold updatePlayerTournamentStats
  rw [if_pos rfl]

theorem runIndividualLoop_unknown (st : DbState) (team : Team) (pts : List ℚ) :
    runIndividualLoop st team pts "Unknown" = st := by
  unfold runIndividualLoop
  exact foldl_fix
    (fun b a => updateIndividualPlayerResult_unknown b a.1 a.2 (pointsAt pts a.2)) _ st

theorem updateClubPoints_zero (st : DbState) (cn : String) :
    samePoints (updateClubPoints st cn 0) st := by
  unfold updateClubPoints
  split
  next => exact samePoints_refl st
  next clubId hfind =>
    split
    next => exact samePoints_refl st
    next club hclub =>
      refine ⟨rfl, ?_, ?_, ?_, ?_, ?_, ?_⟩
      · intro cid
        unfold clubTotalPoints
        by_cases hc : clubId = cid
        · subst hc; simp [alookup_aset, hclub]
        · simp [alookup_aset, hc]
      · intro cid sea
        unfold clubSeasonPoints
        by_cases hc : clubId = cid
        · subst hc
          by_cases hs : st.currentSeason = sea
          · subst hs; simp [alookup_aset, hclub]
          · simp [alookup_aset, hclub, hs]
        · simp [alookup_aset, hc]
      · intro cid tier
        unfold clubTierCounters
        by_cases hc : clubId = cid
        · subst hc; simp [alookup_aset, hclub]
        · simp [alookup_aset, hc]
      · intro cid sea tier
        unfold clubSeasonTierCounters
        by_cases hc : clubId = cid
        · subst hc
          by_cases hs : st.currentSeason = sea
          · subst hs; simp [alookup_aset, hclub]
          · simp [alookup_aset, hclub, hs]
        · simp [alookup_aset, hc]
      · intro cid pk
        unfold rosterPlayerPoints
        by_cases hc : clubId = cid
        · subst hc; simp [alookup_aset, hclub]
        · simp [alookup_aset, hc]
      · intro cid pk sea
        unfold rosterPlayerSeasonPoints
        by_cases hc : clubId = cid
        · subst hc; simp [alookup_aset, hclub]
        · simp [alookup_aset, hc]

theorem updatePlayerPoints_zero (st : DbState) (pid : String) :
    samePoints (updatePlayerPoints st pid 0) st := by
  unfold updatePlayerPoints
  split
  next => exact samePoints_refl st
  next loc hloc =>
    split
    next => exact samePoints_refl st
    next club hclub =>
      split
      next => exact samePoints_refl st
      next p hp =>
        refine ⟨rfl, ?_, ?_, ?_, ?_, ?_, ?_⟩
        · intro cid
          unfold clubTotalPoints
          by_cases hc : loc.1 = cid
          · subst hc; simp [alookup_aset, hclub]
          · simp [alookup_aset, hc]
        · intro cid sea
          unfold clubSeasonPoints
          by_cases hc : loc.1 = cid
          · subst hc; simp [alookup_aset, hclub]
          · simp [alookup_aset, hc]
        · intro cid tier
          unfold clubTierCounters
          by_cases hc : loc.1 = cid
          · subst hc; simp [alookup_aset, hclub]
          · simp [alookup_aset, hc]
        · intro cid sea tier
          unfold clubSeasonTierCounters
          by_cases hc : loc.1 = cid
          · subst hc; simp [alookup_aset, hclub]
          · simp [alookup_aset, hc]
        · intro cid pk
          unfold rosterPlayerPoints
          by_cases hc : loc.1 = cid
          · subst hc
            by_cases hk : loc.2 = pk
            · subst hk; simp [alookup_aset, hclub, hp]
            · simp [alookup_aset, hclub, hk]
          · simp [alookup_aset, hc]
        · intro cid pk sea
          unfold rosterPlayerSeasonPoints
          by_cases hc : loc.1 = cid
          · subst hc
            by_cases hk : loc.2 = pk
            · subst hk
              by_cases hs : st.currentSeason = sea
              · subst hs; simp [alookup_aset, hclub, hp]
              · simp [alookup_aset, hclub, hp, hs]
            · simp [alookup_aset, hclub, hk]
          · simp [alookup_aset, hc]

theorem runRosterLoop_unknown (st : DbState) (team : Team)
    (players : List (String × PlayerInfo)) :
    samePoints (runRosterLoop st team [0, 0, 0, 0] "Unknown" players) st := by
  unfold runRosterLoop
  refine foldl_keep (fun s => samePoints s st) ?_ _ st (samePoints_refl st)
  intro b a hb
  split
  · rw [updatePlayerTournamentStats_unknown, pointsAt_zeros]
    exact samePoints_trans (updatePlayerPoints_zero b a.1) hb
  · exact hb

theorem processTeamResults_unknown (team : Team) (aw : List String)
    (players : List (String × PlayerInfo)) (st : DbState) :
    samePoints (processTeamResults team [0, 0, 0, 0] "Unknown" aw players st).2.2 st := by
  by_cases hE : allPlayersFromSameClub team = true
  · simp only [processTeamResults]
    rw [if_pos hE, if_pos hE, runIndividualLoop_unknown]
    split
    next clubName hfind =>
      split
      next hok =>
        rw [pointsAt_zeros, updateClubTournamentStats_unknown]
        exact samePoints_trans (updateClubPoints_zero _ clubName)
          (runRosterLoop_unknown st team players)
      next hok => exact runRosterLoop_unknown st team players
    next hfind => exact runRosterLoop_unknown st team players
  · simp only [processTeamResults]
    rw [if_neg hE, if_neg hE, runIndividualLoop_unknown]
    exact samePoints_refl st

theorem processTeamsLoop_unknown (players : List (String × PlayerInfo)) :
    ∀ (teams : List (String × Team)) (aw : List String) (st : DbState),
      samePoints (processTeamsLoop [0, 0, 0, 0] "Unknown" players teams aw st).1 st := by
  intro teams
  induction teams with
  | nil => intro aw st; exact samePoints_refl st
  | cons e rest ih =>
    intro aw st
    simp only [processTeamsLoop]
    exact samePoints_trans (ih _ _) (processTeamResults_unknown e.2 aw players st)

/-- Claim C10 (amended): for an Unknown-tier tournament no points are
added and no placement counter changes anywhere - the individual-results
collection is untouched (the per-player and per-club tier-stat writes are
skipped by the early Unknown return rather than attempted, and the club
point writes that do run for eligible teams add zero) - and the
tournament is still marked processed, so a subsequent run skips it. -/
theorem claim10_unknown_tier_amended :
    (∀ (rows : List Row) (st : DbState),
        samePoints (processTournamentResults rows "Unknown" st).1 st)
    ∧ (∀ (f : String → List Row) (st : DbState) (t : Tournament),
        getTierFromName t.name = "Unknown" →
          isTournamentAlreadyProcessed (processOneTournament f st t) t.tournamentId = true
          ∧ processOneTournament f (processOneTournament f st t) t
              = processOneTournament f st t) := by
  constructor
  · intro rows st
    exact processTeamsLoop_unknown (fetchClubsAndPlayers st.clubs)
      (sortTeamsByPlacement
        (groupPlayersByTeam rows (fetchClubsAndPlayers st.clubs))) [] st
  · intro f st t htier
    exact ⟨processOneTournament_marker f st t,
      processOneTournament_skip f _ t (processOneTournament_marker f st t)⟩

/-- Witness for C10 (amended) at the concrete scenario and a concrete
Unknown-named tournament. -/
theorem claim10_unknown_tier_amended_witness :
    samePoints (processTournamentResults rowsMain "Unknown" stMain).1 stMain
    ∧ isTournamentAlreadyProcessed
        (processOneTournament (fun _ => rowsMain) stMain ⟨"T9", none⟩) "T9" = true :=
  ⟨claim10_unknown_tier_amended.1 rowsMain stMain,
   (claim10_unknown_tier_amended.2 (fun _ => rowsMain) stMain ⟨"T9", none⟩ (by decide)).1⟩

end UpdateNode
